import Mathlib

/-!
Shallow embedding of `src/collect.js` from eslint-plugin-flowtype-errors.

The file models the diagnostic-normalization pipeline: the process-invoker
sentinel logic (`spawnFlow`), envelope validation and the filter/map pipeline
(`collect`), the cross-reference message formatter (`formatMessage`), the
coverage extractor (`coverage`) and the one-shot exit-hook registration
(`onExit`).

External collaborators are modelled at their interface, exactly as the code
consumes them:
* the checker subprocess is a captured-stdout value `Option String`
  (`none` = no stdout was captured);
* `JSON.parse` composed with the dynamic field reads the code performs is a
  function parameter (`parse`, `covParse`); `ParsedJson.null` stands for the
  JSON value `null`, on which the subsequent `json.errors` property access
  throws, and `ParsedJson.obj` for every other parsed value (objects, and
  non-null primitives, whose property reads yield `undefined`, i.e. `none`);
* `pathModule.resolve` is a function parameter `resolve`.

JavaScript numbers are modelled as `Int` (the code only adds and compares
them), strings as `String`, absent/`null`/`undefined` fields as `Option`.
Truthiness of strings ("" is falsy) is modelled explicitly where the code
relies on it.
-/

namespace Flowtype

/-- Model of String.prototype.includes: substring containment. -/
def infixAt (pat : List Char) : List Char → Bool
  | [] => pat.isPrefixOf ([] : List Char)
  | c :: cs => pat.isPrefixOf (c :: cs) || infixAt pat cs

/-- JS `s.includes(pat)`. -/
def containsStr (s pat : String) : Bool :=
  infixAt pat.data s.data

/-- JS `s.toLowerCase()` (ASCII-adequate model). -/
def jsToLower (s : String) : String :=
  s.map Char.toLower

/-- JS `s.replace(pat, repl)` with a plain-string pattern: replaces the first
occurrence only. -/
def replaceFirstAux (pat repl : List Char) : List Char → List Char
  | [] => []
  | c :: cs =>
    if pat.isPrefixOf (c :: cs) then repl ++ (c :: cs).drop pat.length
    else c :: replaceFirstAux pat repl cs

/-- JS `s.replace(pat, repl)` (first occurrence; the code only ever uses the
empty string as replacement, so the empty-on-empty corner is irrelevant). -/
def replaceFirst (s pat repl : String) : String :=
  String.mk (replaceFirstAux pat.data repl.data s.data)

/-- Model of the npm `slash` package: convert backslashes to forward slashes
(common case; the extended-length-path exception never applies here). -/
def slashStr (s : String) : String :=
  s.map (fun c => if c == '\\' then '/' else c)

/-- Posix model of Node's `pathModule.basename`: final nonempty path segment. -/
def basename (p : String) : String :=
  (((p.splitOn "/").filter (fun seg => seg != "")).getLast?).getD p

/-- Attempt to match the tail of the regex `/ (\[\d+\])/` right after its
leading space: an opening bracket, one or more digits, a closing bracket.
Returns the captured group (brackets included) and the remaining characters. -/
def tokAfterSpace (cs : List Char) : Option (String × List Char) :=
  match cs with
  | '[' :: rest =>
    match rest.dropWhile (fun c => c.isDigit) with
    | ']' :: rest2 =>
      if (rest.takeWhile (fun c => c.isDigit)).isEmpty then none
      else some (String.mk ('[' :: rest.takeWhile (fun c => c.isDigit) ++ [']']), rest2)
    | _ => none
  | _ => none

/-- Model of `descr.replace(/ (\[\d+\])/g, f)`: scan left to right; at each
position where the pattern matches, emit `f matchedStr capturedGroup` and
continue after the match (replacement text is not rescanned); other characters
pass through unchanged. -/
def scanRepl (f : String → String → String) : List Char → List Char
  | [] => []
  | ' ' :: cs =>
    match h : tokAfterSpace cs with
    | some (g, rest) => (f (" " ++ g) g).data ++ scanRepl f rest
    | none => ' ' :: scanRepl f cs
  | c :: cs => c :: scanRepl f cs
termination_by cs => cs.length
decreasing_by
  · have hlt : rest.length < cs.length := by
      unfold tokAfterSpace at h
      split at h
      · next rest1 =>
        split at h
        · next rest2 heq =>
          split at h
          · exact absurd h (by simp)
          · simp only [Option.some.injEq, Prod.mk.injEq] at h
            obtain ⟨-, rfl⟩ := h
            have hle : (rest1.dropWhile (fun c => c.isDigit)).length ≤ rest1.length :=
              (List.dropWhile_sublist _).length_le
            rw [heq] at hle
            simp only [List.length_cons] at hle
            exact Nat.lt_succ_of_lt (Nat.lt_of_lt_of_le (Nat.lt_succ_self _) hle)
        · exact absurd h (by simp)
      · exact absurd h (by simp)
    simp only [List.length_cons]
    exact Nat.lt_succ_of_lt hlt
  · simp
  · simp

/-- JS `s.replace(/ (\[\d+\])/g, f)`. -/
def jsReplace (f : String → String → String) (s : String) : String :=
  String.mk (scanRepl f s.data)

/-- Source constant `FlowSeverity.Error`. -/
def FlowSeverity.Error : String := "error"

/-- Source constant `FlowSeverity.Warning`. -/
def FlowSeverity.Warning : String := "warning"

/-- The `FlowPos` type: `{line, column, offset}`. -/
structure FlowPos where
  line : Int
  column : Int
  offset : Int
deriving DecidableEq

/-- The `'SourceFile' | 'LibFile'` tag of a `FlowLoc`. -/
inductive LocKind where
  | SourceFile
  | LibFile
deriving DecidableEq

/-- The `FlowLoc` type; `endPos` models the JS field `end`. -/
structure FlowLoc where
  source : Option String
  start : FlowPos
  endPos : FlowPos
  type : LocKind
deriving DecidableEq

/-- The `'Blame' | 'Comment'` tag of a `FlowMessage`. -/
inductive MsgKind where
  | Blame
  | Comment
deriving DecidableEq

/-- The `FlowMessage` type; `loc?: ?FlowLoc` becomes an `Option`. -/
structure FlowMessage where
  path : String
  descr : String
  type : MsgKind
  line : Int
  endline : Int
  loc : Option FlowLoc
deriving DecidableEq

/-- One element of a `FlowError`'s `extra` array: `{message: Array<FlowMessage>}`. -/
structure FlowExtra where
  message : List FlowMessage
deriving DecidableEq

/-- The `FlowError` type. The data model guarantees `message` is non-empty
(a diagnostic is a non-empty sequence of messages, the first being primary). -/
structure FlowError where
  message : List FlowMessage
  level : Option String
  operation : Option FlowMessage
  extra : Option (List FlowExtra)
deriving DecidableEq

/-- Default used to totalize the `message[0]` accesses; on data satisfying the
non-empty-`message` invariant it is never reached. -/
def defaultFlowMessage : FlowMessage :=
  { path := "", descr := "", type := MsgKind.Blame, line := 0, endline := 0, loc := none }

/-- JS `list[0]` on an array of messages, totalized. -/
def headMessage (l : List FlowMessage) : FlowMessage :=
  l.headD defaultFlowMessage

/-- Primary message of a diagnostic: `error.message[0]`. -/
def firstMessage (error : FlowError) : FlowMessage :=
  headMessage error.message

/-- Source function `mainLocOfError`: `(operation && operation.loc) || message[0].loc`. -/
def mainLocOfError (error : FlowError) : Option FlowLoc :=
  match error.operation with
  | some operation =>
    match operation.loc with
    | some l => some l
    | none => (firstMessage error).loc
  | none => (firstMessage error).loc

/-- The `exit` field of the parsed envelope: `{msg, code}`. -/
structure ExitInfo where
  msg : String
  code : Int
deriving DecidableEq

/-- What `collect` reads off a parsed (non-null) JSON value:
`errors = none` models "`json.errors` is not an array" (missing, or any
non-array value), `exit = none` models a falsy `json.exit`. -/
structure FlowEnvelope where
  errors : Option (List FlowError)
  exit : Option ExitInfo
  flowVersion : String
deriving DecidableEq

/-- Result of `JSON.parse` as consumed by `collect`: `null` is the JSON value
`null` (whose `.errors` property access throws), `obj` is every other parsed
value, with the dynamic field reads already performed. A failed parse is the
`none` of the surrounding `Option`. -/
inductive ParsedJson where
  | null
  | obj (json : FlowEnvelope)
deriving DecidableEq

/-- Output position of a normalized diagnostic. The synthetic fatal
diagnostics carry no `offset` field, hence the `Option`. -/
structure OutPos where
  line : Int
  column : Int
  offset : Option Int
deriving DecidableEq

/-- Output location; `endPos` models the JS field `end`. -/
structure OutLoc where
  start : OutPos
  endPos : OutPos
deriving DecidableEq

/-- One element of `collect`'s output. Mapped diagnostics fill every field;
the synthetic fatal diagnostics of `fatalError` only carry `level`, `loc` and
`message`, so the other fields are `Option`s. `endLine` models the JS field
`end`. -/
structure CollectOutputElement where
  type : Option String
  level : String
  message : String
  path : Option String
  start : Option Int
  endLine : Option Int
  loc : OutLoc
deriving DecidableEq

/-- Source function `fatalError(message)`. -/
def fatalError (message : String) : List CollectOutputElement :=
  [{ type := none
     level := FlowSeverity.Error
     message := message
     path := none
     start := none
     endLine := none
     loc := { start := { line := 1, column := 1, offset := none }
              endPos := { line := 1, column := 1, offset := none } } }]

/-- Result of `collect` / `coverage` invocation, or of the shared invoker:
`boolResult` is the boolean sentinel (`true` = empty input, `false` = no
stdout captured); `typeError` models an uncaught JS `TypeError`. -/
inductive CollectResult where
  | boolResult (b : Bool)
  | out (elems : List CollectOutputElement)
  | typeError
deriving DecidableEq

/-- Source function `formatSeePath(message, root, flowVersion)`:
`message.loc && message.loc.type === 'LibFile' ? <github url> : <relative>`.
The relative branch is duplicated across the two match arms because the JS
ternary has a truthy-`&&` condition. -/
def formatSeePath (message : FlowMessage) (root : String) (flowVersion : String) : String :=
  match message.loc with
  | some l =>
    if l.type == LocKind.LibFile then
      "https://github.com/facebook/flow/blob/v" ++ flowVersion ++ "/lib/" ++
        basename message.path ++ "#L" ++ toString message.line
    else
      "." ++ slashStr (replaceFirst message.path root "") ++ ":" ++ toString message.line
  | none =>
    "." ++ slashStr (replaceFirst message.path root "") ++ ":" ++ toString message.line

/-- The replacer callback the source passes to `descr.replace(/ (\[\d+\])/g, ...)`
inside `formatMessage`. -/
def formatMatch (message : FlowMessage) (extras : List FlowMessage) (root : String)
    (flowVersion : String) (lineOffset : Int) (matchedStr extraDescr : String) : String :=
  match extras.find? (fun extra => extra.descr == extraDescr) with
  | none => matchedStr
  | some extraMessage =>
    if extraMessage.path != message.path then
      " (see " ++ formatSeePath extraMessage root flowVersion ++ ")"
    else if extraMessage.line == message.line then
      ""
    else
      " (see line " ++ toString (lineOffset + extraMessage.line) ++ ")"

/-- Source function `formatMessage(message, extras, root, flowVersion, lineOffset)`. -/
def formatMessage (message : FlowMessage) (extras : List FlowMessage) (root : String)
    (flowVersion : String) (lineOffset : Int) : String :=
  jsReplace (formatMatch message extras root flowVersion lineOffset) message.descr

/-- Source function `determineRuleType(description)`. -/
def determineRuleType (description : String) : String :=
  if containsStr (jsToLower description) "missing type annotation" then "missing-annotation"
  else "default"

/-- Result of the invoker `spawnFlow` as seen by its callers. -/
inductive SpawnOut where
  | boolOut (b : Bool)
  | strOut (s : String)
deriving DecidableEq

/-- Source function `spawnFlow(mode, input, root, stopOnExit, filepath)`, value part. The child
process is modelled by its captured stdout `stdoutText` (`none` = no stdout,
e.g. an unsupported platform); the exit-hook side effect is modelled
separately by `spawnFlowExit`. `mode`, `root` and `filepath` only feed the
spawned command line, which is external. -/
def spawnFlow (mode input root : String) (stopOnExit : Bool) (filepath : String)
    (stdoutText : Option String) : SpawnOut :=
  if input = "" then SpawnOut.boolOut true
  else
    match stdoutText with
    | none => SpawnOut.boolOut false
    | some stdout => SpawnOut.strOut stdout

/-- JS string truthiness of an optional string: `undefined`/`null` and `""`
are falsy. -/
def jsTruthyStr : Option String → Bool
  | none => false
  | some s => s != ""

/-- JS `level || FlowSeverity.Error` (`""` is falsy). -/
def jsLevelOr : Option String → String
  | none => FlowSeverity.Error
  | some s => if s = "" then FlowSeverity.Error else s

/-- The filter predicate of `collect`: truthy primary source, truthy primary
description, description free of "inconsistent use of", primary source
resolving to the target file. `fullFilepath` is `resolve root filepath`,
computed once by `collect`. -/
def keepError (resolve : String → String → String) (root : String) (fullFilepath : String)
    (error : FlowError) : Bool :=
  jsTruthyStr ((mainLocOfError error).bind FlowLoc.source) &&
  (firstMessage error).descr != "" &&
  !(containsStr (firstMessage error).descr "inconsistent use of") &&
  (resolve root (((mainLocOfError error).bind FlowLoc.source).getD "") == fullFilepath)

/-- The `offset` argument of `collect` (`programOffset` in the source). -/
structure ProgramOffset where
  line : Int
  column : Int
deriving DecidableEq

/-- The `defaultPos` literal of the source: `{line: 1, column: 1, offset: 0}`. -/
def defaultPos : FlowPos := { line := 1, column := 1, offset := 0 }

/-- The map step of `collect`: builds one normalized output element from a raw
diagnostic (the `.map` callback of the source). The `DEBUG_FLOWTYPE_ERRRORS`
spread of the raw envelope is an out-of-contract debug escape hatch and is not
modelled. -/
def normalizeError (root : String) (flowVersion : String) (programOffset : ProgramOffset)
    (error : FlowError) : CollectOutputElement :=
  let messageObject := firstMessage error
  let message :=
    match error.extra with
    | some extraList =>
      if extraList.length > 0 then
        formatMessage messageObject (extraList.map (fun extraObj => headMessage extraObj.message))
          root flowVersion programOffset.line
      else messageObject.descr
    | none => messageObject.descr
  let startPos := (messageObject.loc.map FlowLoc.start).getD defaultPos
  let endP := (messageObject.loc.map FlowLoc.endPos).getD defaultPos
  let newStart : OutPos :=
    { line := startPos.line + programOffset.line
      column := if startPos.line = 0 then startPos.column + programOffset.column
                else startPos.column
      offset := some startPos.offset }
  let newEnd : OutPos :=
    { line := endP.line + programOffset.line
      column := if endP.line = 0 then endP.column + programOffset.column
                else endP.column
      offset := some endP.offset }
  { type := some (determineRuleType message)
    level := jsLevelOr error.level
    message := message
    path := some messageObject.path
    start := some newStart.line
    endLine := some newEnd.line
    loc := { start := newStart, endPos := newEnd } }

/-- Source function `collect(stdin, root, stopOnExit, filepath, programOffset)`. `resolve`
models `pathModule.resolve`; `parse` models `JSON.parse` plus the dynamic
field reads (see `ParsedJson`); `stdoutText` is the checker's captured
stdout. `typeError` is the uncaught `TypeError` thrown by `json.errors` when
the parsed value is `null`. -/
def collect (resolve : String → String → String) (parse : String → Option ParsedJson)
    (stdin root : String) (stopOnExit : Bool) (filepath : String)
    (programOffset : ProgramOffset) (stdoutText : Option String) : CollectResult :=
  match spawnFlow "check-contents" stdin root stopOnExit filepath stdoutText with
  | SpawnOut.boolOut b => CollectResult.boolResult b
  | SpawnOut.strOut stdout =>
    match parse stdout with
    | none => CollectResult.out (fatalError "Flow returned invalid json")
    | some ParsedJson.null => CollectResult.typeError
    | some (ParsedJson.obj json) =>
      match json.errors with
      | none =>
        match json.exit with
        | some exitInfo =>
          CollectResult.out (fatalError
            ("Flow returned an error: " ++ exitInfo.msg ++ " (code: " ++
              toString exitInfo.code ++ ")"))
        | none => CollectResult.out (fatalError "Flow returned invalid json")
      | some errors =>
        let fullFilepath := resolve root filepath
        CollectResult.out
          ((errors.filter (keepError resolve root fullFilepath)).map
            (normalizeError root json.flowVersion programOffset))

/-- What `coverage` gets out of `JSON.parse(stdout).expressions`:
`caught` = the statement inside `try` threw (`JSON.parse` failed, or the
parsed value was `null` so the `.expressions` access threw) and was caught;
`missing` = the parse succeeded but `.expressions` is `undefined`;
`expressions` = the two counters are present. -/
inductive CovParse where
  | caught
  | missing
  | expressions (coveredCount uncoveredCount : Int)
deriving DecidableEq

/-- Result of `coverage`: the boolean sentinel, the counters, or the uncaught
`TypeError` thrown by `expressions.covered_count` when `expressions` is
`undefined` (that access sits outside the `try` block). -/
inductive CoverageOutcome where
  | boolResult (b : Bool)
  | counts (coveredCount uncoveredCount : Int)
  | typeError
deriving DecidableEq

/-- Source function `coverage(stdin, root, stopOnExit, filepath)`. -/
def coverage (covParse : String → CovParse) (stdin root : String) (stopOnExit : Bool)
    (filepath : String) (stdoutText : Option String) : CoverageOutcome :=
  match spawnFlow "coverage" stdin root stopOnExit filepath stdoutText with
  | SpawnOut.boolOut b => CoverageOutcome.boolResult b
  | SpawnOut.strOut stdout =>
    match covParse stdout with
    | CovParse.caught => CoverageOutcome.counts 0 0
    | CovParse.missing => CoverageOutcome.typeError
    | CovParse.expressions coveredCount uncoveredCount =>
      CoverageOutcome.counts coveredCount uncoveredCount

/-- The process-wide exit-hook state: the module-scoped `didExecute` flag and
the list of `process.on('exit', ...)` hooks registered so far (each hook
recorded by the root path it closes over). -/
structure ExitState where
  didExecute : Bool
  hooks : List String
deriving DecidableEq

/-- The initial state of a process: flag unset, no hook registered. -/
def initExitState : ExitState := { didExecute := false, hooks := [] }

/-- Source function `onExit(root)`: check-and-set of `didExecute`, registering the hook on the
first call only. -/
def onExit (root : String) (st : ExitState) : ExitState :=
  if st.didExecute = false then { didExecute := true, hooks := st.hooks ++ [root] }
  else st

/-- One invocation of the invoker, for the exit-hook state machine: its
arguments plus the stdout the spawned checker produced. -/
structure Invocation where
  mode : String
  input : String
  root : String
  stopOnExit : Bool
  filepath : String
  stdoutText : Option String
deriving DecidableEq

/-- The exit-hook side effect of one `spawnFlow` call: `onExit` runs only
after the empty-input and no-stdout early returns, and only if `stopOnExit`. -/
def spawnFlowExit (inv : Invocation) (st : ExitState) : ExitState :=
  if inv.input = "" then st
  else
    match inv.stdoutText with
    | none => st
    | some _ => if inv.stopOnExit then onExit inv.root st else st

/-- The exit-hook state after a sequence of invocations in one process. -/
def runInvocations (invs : List Invocation) (st : ExitState) : ExitState :=
  invs.foldl (fun s inv => spawnFlowExit inv s) st

/-- An invocation that reaches the `stopOnExit` check and requests it:
non-empty input, captured stdout, `stopOnExit` set. -/
def registers (inv : Invocation) : Bool :=
  inv.stopOnExit && inv.input != "" && inv.stdoutText.isSome

/-- Modelled from the spec's wording for the cross-reference target (§4.3): a
checker-version-pinned library documentation URL when the extra's location is
a library-file location, else a root-relative path `.{path}:{line}` with
forward slashes. -/
def seeReferenceSpec (extra : FlowMessage) (root : String) (checkerVersion : String) : String :=
  if (match extra.loc with
      | some l => l.type == LocKind.LibFile
      | none => false) then
    "https://github.com/facebook/flow/blob/v" ++ checkerVersion ++ "/lib/" ++
      basename extra.path ++ "#L" ++ toString extra.line
  else
    "." ++ slashStr (replaceFirst extra.path root "") ++ ":" ++ toString extra.line

/-- Modelled from the spec's wording for one reference-token replacement
(§4.3): no matching extra leaves the matched text unchanged; a matching extra
in the same file replaces with the empty string on the same line and with
" (see line lineOffset+N)" on a different line; a matching extra in a
different file replaces with " (see reference)". -/
def formatMatchSpec (message : FlowMessage) (extras : List FlowMessage) (root : String)
    (checkerVersion : String) (lineOffset : Int) (matchedStr token : String) : String :=
  match extras.find? (fun extra => extra.descr == token) with
  | none => matchedStr
  | some extra =>
    if extra.path == message.path then
      if extra.line == message.line then ""
      else " (see line " ++ toString (lineOffset + extra.line) ++ ")"
    else
      " (see " ++ seeReferenceSpec extra root checkerVersion ++ ")"

/-- Modelled from the spec's wording of the Message Formatter contract (§4.3),
over the same single-pass replacement engine as the code. -/
def formatMessageSpec (message : FlowMessage) (extras : List FlowMessage) (root : String)
    (checkerVersion : String) (lineOffset : Int) : String :=
  jsReplace (formatMatchSpec message extras root checkerVersion lineOffset) message.descr

/-! Concrete data used by witnesses and counterexamples. -/

/-- Concrete stand-in for `pathModule.resolve` in closed instances (posix-like
join; the theorems themselves quantify over arbitrary `resolve`). -/
def sampleResolve (root p : String) : String := root ++ "/" ++ p

/-- Zero offset. -/
def off0 : ProgramOffset := { line := 0, column := 0 }

/-- An offset with nonzero line and column. -/
def offA : ProgramOffset := { line := 10, column := 4 }

/-- Sample primary location inside the target file. -/
def sampleLoc : FlowLoc :=
  { source := some "f"
    start := { line := 1, column := 2, offset := 3 }
    endPos := { line := 1, column := 5, offset := 6 }
    type := LocKind.SourceFile }

/-- Sample primary message. -/
def sampleMsg : FlowMessage :=
  { path := "f", descr := "Missing type annotation for x", type := MsgKind.Blame
    line := 1, endline := 1, loc := some sampleLoc }

/-- Sample raw diagnostic that survives the filter. -/
def sampleErr : FlowError :=
  { message := [sampleMsg], level := none, operation := none, extra := none }

/-- Sample error list. -/
def sampleErrors : List FlowError := [sampleErr]

/-- Sample well-formed envelope. -/
def sampleEnvelope : FlowEnvelope :=
  { errors := some sampleErrors, exit := none, flowVersion := "0.57.3" }

/-- Parse model mapping every stdout to the sample envelope. -/
def sampleParse : String → Option ParsedJson :=
  fun _ => some (ParsedJson.obj sampleEnvelope)

/-- Diagnostic whose primary source is present but the empty string: non-null
yet falsy in JS. Its remaining fields satisfy all other filter conditions when
the target `filepath` is `""`. -/
def cexErr1 : FlowError :=
  { message := [{ path := "", descr := "x", type := MsgKind.Blame, line := 1, endline := 1
                  loc := some { source := some "", start := defaultPos, endPos := defaultPos
                                type := LocKind.SourceFile } }]
    level := none, operation := none, extra := none }

/-- Parse model for the empty-source counterexample. -/
def cexParse1 : String → Option ParsedJson :=
  fun _ => some (ParsedJson.obj { errors := some [cexErr1], exit := none, flowVersion := "0.1" })

/-- Parse model in which `JSON.parse` always throws. -/
def parseFailFn : String → Option ParsedJson := fun _ => none

/-- Envelope without an `errors` array but with an `exit` field. -/
def exitEnvelope : FlowEnvelope :=
  { errors := none, exit := some { msg := "Out of memory", code := 2 }, flowVersion := "0.1" }

/-- Parse model producing `exitEnvelope`. -/
def parseExitFn : String → Option ParsedJson :=
  fun _ => some (ParsedJson.obj exitEnvelope)

/-- Parse model in which stdout parses to the JSON value `null`. -/
def parseNullFn : String → Option ParsedJson := fun _ => some ParsedJson.null

/-- Coverage parse model: stdout parses, but `.expressions` is `undefined`
(for example stdout `"{}"`). -/
def covParseMissingFn : String → CovParse := fun _ => CovParse.missing

/-- An invocation that requests the exit hook and reaches the registration. -/
def regInv : Invocation :=
  { mode := "check-contents", input := "var x = 1", root := "/r", stopOnExit := true
    filepath := "f", stdoutText := some "out" }

/-- An invocation that requests the exit hook but has empty input, so the
invoker returns `true` before any registration. -/
def emptyInputInv : Invocation :=
  { mode := "check-contents", input := "", root := "/r", stopOnExit := true
    filepath := "f", stdoutText := some "out" }

/-- Operation message whose location decides the filter for the C10 data. -/
def opMsg10 : FlowMessage :=
  { path := "f", descr := "call", type := MsgKind.Blame, line := 3, endline := 3
    loc := some { source := some "f"
                  start := { line := 3, column := 4, offset := 5 }
                  endPos := { line := 3, column := 6, offset := 7 }
                  type := LocKind.SourceFile } }

/-- Diagnostic filtered in through its operation location while its first
message has no location. -/
def e10 : FlowError :=
  { message := [{ path := "f", descr := "some problem", type := MsgKind.Blame
                  line := 3, endline := 3, loc := none }]
    level := none, operation := some opMsg10, extra := none }

/-- Parse model producing an envelope holding `e10`. -/
def parse10 : String → Option ParsedJson :=
  fun _ => some (ParsedJson.obj { errors := some [e10], exit := none, flowVersion := "0.1" })

/-- Like `e10` but with an empty first-message description: the operation
location matches the target file, yet the filter drops the diagnostic. -/
def cexErr10 : FlowError :=
  { message := [{ path := "f", descr := "", type := MsgKind.Blame
                  line := 3, endline := 3, loc := none }]
    level := none, operation := some opMsg10, extra := none }

/-- Parse model for the empty-description counterexample. -/
def cexParse10 : String → Option ParsedJson :=
  fun _ => some (ParsedJson.obj { errors := some [cexErr10], exit := none, flowVersion := "0.1" })

/-- Location whose start sits on raw line 0 (shares the offset line) and whose
end sits on a later line. -/
def loc2 : FlowLoc :=
  { source := some "f"
    start := { line := 0, column := 5, offset := 7 }
    endPos := { line := 2, column := 3, offset := 9 }
    type := LocKind.SourceFile }

/-- Message carrying `loc2`. -/
def msg2 : FlowMessage :=
  { path := "f", descr := "boom", type := MsgKind.Blame, line := 2, endline := 2
    loc := some loc2 }

/-- Diagnostic carrying `msg2`. -/
def e2 : FlowError :=
  { message := [msg2], level := none, operation := none, extra := none }

/-! Shared helper lemmas. -/

theorem spawnFlow_some_of_ne {mode input root : String} {stopOnExit : Bool} {filepath s : String}
    (h : input ≠ "") :
    spawnFlow mode input root stopOnExit filepath (some s) = SpawnOut.strOut s := by
  simp [spawnFlow, h]

theorem formatSeePath_eq_seeReferenceSpec (extra : FlowMessage) (root checkerVersion : String) :
    formatSeePath extra root checkerVersion = seeReferenceSpec extra root checkerVersion := by
  unfold formatSeePath seeReferenceSpec
  cases extra.loc with
  | none => simp
  | some l => by_cases hl : l.type == LocKind.LibFile <;> simp [hl]

/-- C3: for every message, extras list, root path, checker version and line
offset, the formatter resolves each " [digits]" reference token as the spec
describes — a token with no matching extra is left verbatim; a matching extra
in the same file and on the same line yields the empty string; same file,
different line yields " (see line lineOffset+N)"; a different file yields the
" (see reference)" form — leaving all other description text unchanged. All
structures are immutable values, so the inputs are not mutated. -/
theorem formatMessage_refines_spec (message : FlowMessage) (extras : List FlowMessage)
    (root checkerVersion : String) (lineOffset : Int) :
    formatMessage message extras root checkerVersion lineOffset =
      formatMessageSpec message extras root checkerVersion lineOffset := by
  unfold formatMessage formatMessageSpec
  have h : formatMatch message extras root checkerVersion lineOffset =
      formatMatchSpec message extras root checkerVersion lineOffset := by
    funext matchedStr token
    unfold formatMatch formatMatchSpec
    cases extras.find? (fun extra => extra.descr == token) with
    | none => rfl
    | some extra =>
      by_cases hp : extra.path = message.path
      · by_cases hl : extra.line = message.line <;>
          simp [hp, hl, formatSeePath_eq_seeReferenceSpec]
      · simp [hp, formatSeePath_eq_seeReferenceSpec]
  rw [h]

/-- C2: for every diagnostic whose first message carries a location, the
normalized output adds the offset's line to both the start and the end line,
shifts a coordinate's column by the offset's column exactly when that
coordinate's raw line is 0, and carries the byte offsets through unchanged
(both in the output location and in the top-level start/end line fields). -/
theorem normalize_location_offset (root flowVersion : String) (off : ProgramOffset)
    (e : FlowError) (l : FlowLoc) (hl : (firstMessage e).loc = some l) :
    (normalizeError root flowVersion off e).loc.start.line = l.start.line + off.line ∧
    (normalizeError root flowVersion off e).loc.endPos.line = l.endPos.line + off.line ∧
    (normalizeError root flowVersion off e).loc.start.column =
      (if l.start.line = 0 then l.start.column + off.column else l.start.column) ∧
    (normalizeError root flowVersion off e).loc.endPos.column =
      (if l.endPos.line = 0 then l.endPos.column + off.column else l.endPos.column) ∧
    (normalizeError root flowVersion off e).loc.start.offset = some l.start.offset ∧
    (normalizeError root flowVersion off e).loc.endPos.offset = some l.endPos.offset ∧
    (normalizeError root flowVersion off e).start = some (l.start.line + off.line) ∧
    (normalizeError root flowVersion off e).endLine = some (l.endPos.line + off.line) := by
  simp [normalizeError, hl]

/-- Witness for C2 at a concrete diagnostic whose start line is 0 and end line
is 2, with offset {line 10, column 4}. -/
theorem normalize_location_offset_witness :
    (firstMessage e2).loc = some loc2 ∧
    ((normalizeError "/r" "0.1" offA e2).loc.start.line = loc2.start.line + offA.line ∧
     (normalizeError "/r" "0.1" offA e2).loc.endPos.line = loc2.endPos.line + offA.line ∧
     (normalizeError "/r" "0.1" offA e2).loc.start.column =
       (if loc2.start.line = 0 then loc2.start.column + offA.column else loc2.start.column) ∧
     (normalizeError "/r" "0.1" offA e2).loc.endPos.column =
       (if loc2.endPos.line = 0 then loc2.endPos.column + offA.column else loc2.endPos.column) ∧
     (normalizeError "/r" "0.1" offA e2).loc.start.offset = some loc2.start.offset ∧
     (normalizeError "/r" "0.1" offA e2).loc.endPos.offset = some loc2.endPos.offset ∧
     (normalizeError "/r" "0.1" offA e2).start = some (loc2.start.line + offA.line) ∧
     (normalizeError "/r" "0.1" offA e2).endLine = some (loc2.endPos.line + offA.line)) :=
  ⟨rfl, normalize_location_offset "/r" "0.1" offA e2 loc2 rfl⟩

/-- C4 (code bug): when the checker's stdout parses as a JSON value with no
`expressions` field (for example `{}`), the `.expressions` read inside the
`try` yields `undefined` without throwing, and `expressions.covered_count`
then throws an uncaught TypeError outside the `try` — `coverage` raises
instead of returning the zero counts the spec promises. -/
theorem coverage_missing_expressions_raises :
    coverage covParseMissingFn "var x = 1" "/r" false "f" (some "malformed-envelope") =
      CoverageOutcome.typeError ∧
    CoverageOutcome.typeError ≠ CoverageOutcome.counts 0 0 := by
  exact ⟨rfl, by decide⟩

/-- C5: whenever the checker's stdout does not parse as JSON, `collect`
returns exactly one synthetic fatal diagnostic with severity Error, message
"Flow returned invalid json" and the degenerate location, and does not raise. -/
theorem collect_invalid_json_fatal (resolve : String → String → String)
    (parse : String → Option ParsedJson) (stdin root filepath stdout : String)
    (stopOnExit : Bool) (off : ProgramOffset)
    (hin : stdin ≠ "") (hp : parse stdout = none) :
    collect resolve parse stdin root stopOnExit filepath off (some stdout) =
      CollectResult.out
        [{ type := none, level := FlowSeverity.Error, message := "Flow returned invalid json"
           path := none, start := none, endLine := none
           loc := { start := { line := 1, column := 1, offset := none }
                    endPos := { line := 1, column := 1, offset := none } } }] := by
  unfold collect
  rw [spawnFlow_some_of_ne hin]
  simp [hp, fatalError]

/-- Witness for C5 at a concrete invocation whose parse fails. -/
theorem collect_invalid_json_fatal_witness :
    ("var x = 1" ≠ "") ∧ parseFailFn "not json" = none ∧
    collect sampleResolve parseFailFn "var x = 1" "/r" false "f" off0 (some "not json") =
      CollectResult.out
        [{ type := none, level := FlowSeverity.Error, message := "Flow returned invalid json"
           path := none, start := none, endLine := none
           loc := { start := { line := 1, column := 1, offset := none }
                    endPos := { line := 1, column := 1, offset := none } } }] :=
  ⟨by decide, rfl,
    collect_invalid_json_fatal sampleResolve parseFailFn "var x = 1" "/r" "f" "not json"
      false off0 (by decide) rfl⟩

/-- C6 (amended: restricted to parsed values other than JSON `null`; on
`null` the `json.errors` access throws an uncaught TypeError instead — see the
counterexample): if stdout parses to a non-null JSON value whose `errors`
field is not an array, `collect` returns one fatal diagnostic built from the
`exit` field when it is present, else the generic invalid-json fatal message,
both with Error severity and the degenerate location. -/
theorem collect_bad_envelope_fatal (resolve : String → String → String)
    (parse : String → Option ParsedJson) (stdin root filepath stdout : String)
    (stopOnExit : Bool) (off : ProgramOffset) (json : FlowEnvelope)
    (hin : stdin ≠ "") (hp : parse stdout = some (ParsedJson.obj json))
    (he : json.errors = none) :
    (∀ exitInfo, json.exit = some exitInfo →
      collect resolve parse stdin root stopOnExit filepath off (some stdout) =
        CollectResult.out
          [{ type := none, level := FlowSeverity.Error
             message := "Flow returned an error: " ++ exitInfo.msg ++ " (code: " ++
               toString exitInfo.code ++ ")"
             path := none, start := none, endLine := none
             loc := { start := { line := 1, column := 1, offset := none }
                      endPos := { line := 1, column := 1, offset := none } } }]) ∧
    (json.exit = none →
      collect resolve parse stdin root stopOnExit filepath off (some stdout) =
        CollectResult.out
          [{ type := none, level := FlowSeverity.Error, message := "Flow returned invalid json"
             path := none, start := none, endLine := none
             loc := { start := { line := 1, column := 1, offset := none }
                      endPos := { line := 1, column := 1, offset := none } } }]) := by
  constructor
  · intro exitInfo hx
    unfold collect
    rw [spawnFlow_some_of_ne hin]
    simp [hp, he, hx, fatalError]
  · intro hx
    unfold collect
    rw [spawnFlow_some_of_ne hin]
    simp [hp, he, hx, fatalError]

/-- Witness for C6 at a concrete envelope carrying an `exit` field. -/
theorem collect_bad_envelope_fatal_witness :
    ("var x = 1" ≠ "") ∧ parseExitFn "s" = some (ParsedJson.obj exitEnvelope) ∧
    exitEnvelope.errors = none ∧ exitEnvelope.exit = some { msg := "Out of memory", code := 2 } ∧
    collect sampleResolve parseExitFn "var x = 1" "/r" false "f" off0 (some "s") =
      CollectResult.out
        [{ type := none, level := FlowSeverity.Error
           message := "Flow returned an error: " ++ "Out of memory" ++ " (code: " ++
             toString (2 : Int) ++ ")"
           path := none, start := none, endLine := none
           loc := { start := { line := 1, column := 1, offset := none }
                    endPos := { line := 1, column := 1, offset := none } } }] :=
  ⟨by decide, rfl, rfl, rfl,
    (collect_bad_envelope_fatal sampleResolve parseExitFn "var x = 1" "/r" "f" "s" false off0
      exitEnvelope (by decide) rfl rfl).1 { msg := "Out of memory", code := 2 } rfl⟩

/-- Counterexample to C6 as stated: stdout `"null"` parses as JSON and its
`errors` field is not a sequence, yet `collect` does not return a fatal
diagnostic — the `json.errors` property access throws an uncaught TypeError. -/
theorem collect_null_envelope_counterexample :
    parseNullFn "null" = some ParsedJson.null ∧
    collect sampleResolve parseNullFn "var x = 1" "/r" false "f" off0 (some "null") =
      CollectResult.typeError ∧
    CollectResult.typeError ≠
      CollectResult.out (fatalError "Flow returned invalid json") := by
  refine ⟨rfl, rfl, by decide⟩

/-- C7: with empty input text both entry points return the boolean `true`
without consulting the checker at all (the result is the same for every
possible checker behaviour); with non-empty input and no captured stdout both
return the boolean `false`, which is distinct from the empty sequence produced
by a well-formed envelope with zero diagnostics. -/
theorem empty_input_and_no_stdout_sentinels (resolve : String → String → String)
    (parse : String → Option ParsedJson) (covParse : String → CovParse)
    (root filepath stdin stdout : String) (stopOnExit : Bool) (off : ProgramOffset)
    (stdoutText : Option String) (json : FlowEnvelope) :
    collect resolve parse "" root stopOnExit filepath off stdoutText =
      CollectResult.boolResult true ∧
    coverage covParse "" root stopOnExit filepath stdoutText =
      CoverageOutcome.boolResult true ∧
    (stdin ≠ "" → collect resolve parse stdin root stopOnExit filepath off none =
      CollectResult.boolResult false) ∧
    (stdin ≠ "" → coverage covParse stdin root stopOnExit filepath none =
      CoverageOutcome.boolResult false) ∧
    (stdin ≠ "" → parse stdout = some (ParsedJson.obj json) → json.errors = some [] →
      collect resolve parse stdin root stopOnExit filepath off (some stdout) =
        CollectResult.out []) ∧
    CollectResult.boolResult false ≠ CollectResult.out [] := by
  refine ⟨rfl, rfl, ?_, ?_, ?_, by decide⟩
  · intro h
    unfold collect
    simp [spawnFlow, h]
  · intro h
    unfold coverage
    simp [spawnFlow, h]
  · intro h hp he
    unfold collect
    rw [spawnFlow_some_of_ne h]
    simp [hp, he]

/-- Witness for C7 at concrete invocations. -/
theorem empty_input_and_no_stdout_sentinels_witness :
    collect sampleResolve sampleParse "" "/r" false "f" off0 (some "whatever") =
      CollectResult.boolResult true ∧
    coverage covParseMissingFn "" "/r" false "f" (some "whatever") =
      CoverageOutcome.boolResult true ∧
    collect sampleResolve sampleParse "var x = 1" "/r" false "f" off0 none =
      CollectResult.boolResult false ∧
    coverage covParseMissingFn "var x = 1" "/r" false "f" none =
      CoverageOutcome.boolResult false ∧
    CollectResult.boolResult false ≠ CollectResult.out [] := by
  have h := empty_input_and_no_stdout_sentinels sampleResolve sampleParse covParseMissingFn
    "/r" "f" "var x = 1" "irrelevant" false off0 (some "whatever") sampleEnvelope
  exact ⟨h.1, h.2.1, h.2.2.1 (by decide), h.2.2.2.1 (by decide), h.2.2.2.2.2⟩

/-- C8: a normalized diagnostic is categorized "missing-annotation" exactly
when its (lower-cased) normalized message text contains "missing type
annotation", and is categorized "default" otherwise. -/
theorem category_classification (resolve : String → String → String)
    (root filepath flowVersion : String) (off : ProgramOffset) (e : FlowError)
    (hkeep : keepError resolve root (resolve root filepath) e = true) :
    ((normalizeError root flowVersion off e).type = some "missing-annotation" ↔
      containsStr (jsToLower (normalizeError root flowVersion off e).message)
        "missing type annotation" = true) ∧
    ((normalizeError root flowVersion off e).type = some "missing-annotation" ∨
      (normalizeError root flowVersion off e).type = some "default") := by
  have htype : (normalizeError root flowVersion off e).type =
      some (determineRuleType (normalizeError root flowVersion off e).message) := rfl
  constructor
  · rw [htype]
    unfold determineRuleType
    split
    · next hc => simp [hc]
    · next hc => simp [hc]
  · rw [htype]
    unfold determineRuleType
    split
    · exact Or.inl rfl
    · exact Or.inr rfl

/-- Witness for C8 at a concrete surviving diagnostic whose message contains
"Missing type annotation". -/
theorem category_classification_witness :
    keepError sampleResolve "/r" (sampleResolve "/r" "f") sampleErr = true ∧
    (((normalizeError "/r" "0.57.3" off0 sampleErr).type = some "missing-annotation" ↔
      containsStr (jsToLower (normalizeError "/r" "0.57.3" off0 sampleErr).message)
        "missing type annotation" = true) ∧
    ((normalizeError "/r" "0.57.3" off0 sampleErr).type = some "missing-annotation" ∨
      (normalizeError "/r" "0.57.3" off0 sampleErr).type = some "default")) :=
  ⟨by decide,
    category_classification sampleResolve "/r" "f" "0.57.3" off0 sampleErr (by decide)⟩

/-- C1 (amended: the primary location's source must be a truthy string —
non-null *and non-empty* — because the JS guard `mainFile && ...` treats the
empty string as falsy; see the counterexample): `collect`'s output is exactly
the raw diagnostics passing the filter, mapped; and for every diagnostic with
a non-empty message list the filter passes iff the primary location has a
non-empty source, the first message's description is non-empty and free of
"inconsistent use of", and the primary source resolved against the root
equals the target file resolved against the root. -/
theorem keep_filter_iff (resolve : String → String → String)
    (parse : String → Option ParsedJson) (stdin root filepath stdout : String)
    (stopOnExit : Bool) (off : ProgramOffset) (json : FlowEnvelope) (errors : List FlowError)
    (hin : stdin ≠ "") (hp : parse stdout = some (ParsedJson.obj json))
    (he : json.errors = some errors) :
    collect resolve parse stdin root stopOnExit filepath off (some stdout) =
      CollectResult.out
        ((errors.filter (keepError resolve root (resolve root filepath))).map
          (normalizeError root json.flowVersion off)) ∧
    ∀ e, e ∈ errors → e.message ≠ [] →
      (keepError resolve root (resolve root filepath) e = true ↔
        ∃ loc, mainLocOfError e = some loc ∧ ∃ s, loc.source = some s ∧ s ≠ "" ∧
          (firstMessage e).descr ≠ "" ∧
          containsStr (firstMessage e).descr "inconsistent use of" = false ∧
          resolve root s = resolve root filepath) := by
  constructor
  · unfold collect
    rw [spawnFlow_some_of_ne hin]
    simp [hp, he]
  · intro e _ _
    cases hml : mainLocOfError e with
    | none => simp [keepError, hml, jsTruthyStr]
    | some loc =>
      cases hsrc : loc.source with
      | none => simp [keepError, hml, hsrc, jsTruthyStr]
      | some s =>
        simp [keepError, hml, hsrc, jsTruthyStr, Bool.and_eq_true, bne_iff_ne,
          Bool.not_eq_true', beq_iff_eq, and_assoc]

/-- Witness for C1 at a concrete envelope with one surviving diagnostic. -/
theorem keep_filter_iff_witness :
    ("var x = 1" ≠ "") ∧ sampleParse "ok" = some (ParsedJson.obj sampleEnvelope) ∧
    sampleEnvelope.errors = some sampleErrors ∧
    (collect sampleResolve sampleParse "var x = 1" "/r" false "f" off0 (some "ok") =
      CollectResult.out
        ((sampleErrors.filter (keepError sampleResolve "/r" (sampleResolve "/r" "f"))).map
          (normalizeError "/r" sampleEnvelope.flowVersion off0)) ∧
    ∀ e, e ∈ sampleErrors → e.message ≠ [] →
      (keepError sampleResolve "/r" (sampleResolve "/r" "f") e = true ↔
        ∃ loc, mainLocOfError e = some loc ∧ ∃ s, loc.source = some s ∧ s ≠ "" ∧
          (firstMessage e).descr ≠ "" ∧
          containsStr (firstMessage e).descr "inconsistent use of" = false ∧
          sampleResolve "/r" s = sampleResolve "/r" "f")) :=
  ⟨by decide, rfl, rfl,
    keep_filter_iff sampleResolve sampleParse "var x = 1" "/r" "f" "ok" false off0
      sampleEnvelope sampleErrors (by decide) rfl rfl⟩

/-- Counterexample to C1 as stated: a diagnostic whose primary source is
non-null but empty satisfies every condition of the claim (with target
filepath `""` the resolved paths agree), yet the filter drops it because JS
treats `""` as falsy. -/
theorem keep_filter_empty_source_counterexample :
    (mainLocOfError cexErr1).bind FlowLoc.source = some "" ∧
    (firstMessage cexErr1).descr ≠ "" ∧
    containsStr (firstMessage cexErr1).descr "inconsistent use of" = false ∧
    sampleResolve "/r" "" = sampleResolve "/r" "" ∧
    keepError sampleResolve "/r" (sampleResolve "/r" "") cexErr1 = false ∧
    collect sampleResolve cexParse1 "var x = 1" "/r" false "" off0 (some "s") =
      CollectResult.out [] := by
  refine ⟨rfl, by decide, by decide, rfl, by decide, by decide⟩

/-! Helper lemmas for the exit-hook state machine. -/

theorem spawnFlowExit_done (inv : Invocation) (st : ExitState) (h : st.didExecute = true) :
    spawnFlowExit inv st = st := by
  unfold spawnFlowExit
  split
  · rfl
  · cases hs : inv.stdoutText with
    | none => simp
    | some s => simp [hs, onExit, h]

theorem spawnFlowExit_not_registering (inv : Invocation) (st : ExitState)
    (h : registers inv = false) : spawnFlowExit inv st = st := by
  unfold registers at h
  unfold spawnFlowExit
  split
  · rfl
  · next hinput =>
    cases hs : inv.stdoutText with
    | none => simp
    | some s =>
      simp only [hs]
      have hstop : inv.stopOnExit = false := by
        simp [hs, hinput, bne_iff_ne] at h
        exact h
      simp [hstop]

theorem runInvocations_done (invs : List Invocation) :
    ∀ st : ExitState, st.didExecute = true → runInvocations invs st = st := by
  induction invs with
  | nil => intro st _; rfl
  | cons inv rest ih =>
    intro st h
    simp only [runInvocations, List.foldl_cons]
    rw [spawnFlowExit_done inv st h]
    exact ih st h

theorem runInvocations_init_eq (invs : List Invocation) :
    runInvocations invs initExitState =
      (match invs.find? registers with
       | none => initExitState
       | some inv₀ => { didExecute := true, hooks := [inv₀.root] }) := by
  induction invs with
  | nil => rfl
  | cons inv rest ih =>
    by_cases hreg : registers inv = true
    · have hfind : (inv :: rest).find? registers = some inv := by
        simp [List.find?_cons, hreg]
      rw [hfind]
      have h1 : inv.stopOnExit = true := by
        simp [registers, Bool.and_eq_true] at hreg
        exact hreg.1.1
      have h2 : inv.input ≠ "" := by
        simp [registers, Bool.and_eq_true, bne_iff_ne] at hreg
        exact hreg.1.2
      obtain ⟨s, hs⟩ := Option.isSome_iff_exists.mp (by
        simp [registers, Bool.and_eq_true] at hreg
        exact hreg.2)
      have hstep : spawnFlowExit inv initExitState =
          { didExecute := true, hooks := [inv.root] } := by
        unfold spawnFlowExit
        simp [h2, hs, h1, onExit, initExitState]
      simp only [runInvocations, List.foldl_cons]
      rw [hstep]
      exact runInvocations_done rest _ rfl
    · have hreg' : registers inv = false := by
        simpa using hreg
      have hfind : (inv :: rest).find? registers = rest.find? registers := by
        simp [List.find?_cons, hreg']
      rw [hfind]
      simp only [runInvocations, List.foldl_cons]
      rw [spawnFlowExit_not_registering inv _ hreg']
      exact ih

/-- C9 (amended: the hook is registered only by an invocation that actually
reaches the registration point — non-empty input and captured stdout — not by
every invocation with `registerExitStop` true; see the counterexample; and
the single hook closes over the root path of the *first* registering
invocation): after any such invocation the flag is set and exactly one hook
exists; the flag is check-and-set — once set, every later invocation leaves
the state untouched — so at most one hook is ever registered. -/
theorem exit_hook_registration (invs : List Invocation) :
    (runInvocations invs initExitState).hooks.length ≤ 1 ∧
    (∀ inv, inv ∈ invs → inv.stopOnExit = true → inv.input ≠ "" →
      inv.stdoutText.isSome = true →
      (runInvocations invs initExitState).didExecute = true ∧
      (runInvocations invs initExitState).hooks.length = 1) ∧
    (∀ st : ExitState, st.didExecute = true → runInvocations invs st = st) ∧
    (∀ inv₀, invs.find? registers = some inv₀ →
      (runInvocations invs initExitState).hooks = [inv₀.root]) ∧
    (invs.find? registers = none → runInvocations invs initExitState = initExitState) := by
  refine ⟨?_, ?_, runInvocations_done invs, ?_, ?_⟩
  · rw [runInvocations_init_eq]
    cases hf : invs.find? registers <;> simp [initExitState]
  · intro inv hmem h1 h2 h3
    have hreg : registers inv = true := by
      simp [registers, h1, h3, bne_iff_ne, h2]
    have hsome : (invs.find? registers).isSome := by
      rw [List.find?_isSome]
      exact ⟨inv, hmem, hreg⟩
    obtain ⟨inv₀, hf⟩ := Option.isSome_iff_exists.mp hsome
    rw [runInvocations_init_eq, hf]
    exact ⟨rfl, rfl⟩
  · intro inv₀ hf
    rw [runInvocations_init_eq, hf]
  · intro hf
    rw [runInvocations_init_eq, hf]

/-- Witness for C9: one registering invocation sets the flag and registers
exactly one hook. -/
theorem exit_hook_registration_witness :
    (runInvocations [regInv] initExitState).didExecute = true ∧
    (runInvocations [regInv] initExitState).hooks.length = 1 :=
  (exit_hook_registration [regInv]).2.1 regInv (List.mem_singleton.mpr rfl) rfl
    (by decide) rfl

/-- Counterexample to C9 as stated: an invocation with `registerExitStop` true
but empty input returns the `true` sentinel before the registration point, so
no teardown hook is registered for its root path. -/
theorem exit_hook_empty_input_counterexample :
    emptyInputInv.stopOnExit = true ∧
    runInvocations [emptyInputInv] initExitState = initExitState ∧
    (runInvocations [emptyInputInv] initExitState).hooks = [] := by
  refine ⟨rfl, by decide, by decide⟩

/-- C10 (amended: the diagnostic must additionally pass the description
conditions of the filter — non-empty first description free of "inconsistent
use of" — and the operation's source must be non-empty; see the
counterexample): a diagnostic whose operation location decides the filter but
whose first message has no location is kept, and its output location is the
degenerate default shifted by the offset — lines 1 + offset.line, columns 1
(raw line 1 is not 0), offsets 0 — computed solely from the first message's
location; changing the operation never changes the output location. -/
theorem operation_filter_default_location (resolve : String → String → String)
    (parse : String → Option ParsedJson) (stdin root filepath stdout : String)
    (stopOnExit : Bool) (off : ProgramOffset) (json : FlowEnvelope) (errors : List FlowError)
    (e : FlowError) (op : FlowMessage) (oloc : FlowLoc) (s : String)
    (hin : stdin ≠ "") (hp : parse stdout = some (ParsedJson.obj json))
    (he : json.errors = some errors) (hmem : e ∈ errors)
    (hop : e.operation = some op) (holoc : op.loc = some oloc)
    (hsrc : oloc.source = some s) (hs : s ≠ "")
    (hdescr : (firstMessage e).descr ≠ "")
    (hnoise : containsStr (firstMessage e).descr "inconsistent use of" = false)
    (hres : resolve root s = resolve root filepath)
    (hmloc : (firstMessage e).loc = none) :
    ∃ out, collect resolve parse stdin root stopOnExit filepath off (some stdout) =
        CollectResult.out out ∧
      normalizeError root json.flowVersion off e ∈ out ∧
      (normalizeError root json.flowVersion off e).loc =
        { start := { line := 1 + off.line, column := 1, offset := some 0 }
          endPos := { line := 1 + off.line, column := 1, offset := some 0 } } ∧
      ∀ op₂, (normalizeError root json.flowVersion off { e with operation := op₂ }).loc =
        (normalizeError root json.flowVersion off e).loc := by
  have hml : mainLocOfError e = some oloc := by
    simp [mainLocOfError, hop, holoc]
  have hkeep : keepError resolve root (resolve root filepath) e = true := by
    simp [keepError, hml, hsrc, jsTruthyStr, hs, hdescr, hnoise, hres, bne_iff_ne,
      beq_iff_eq]
  refine ⟨(errors.filter (keepError resolve root (resolve root filepath))).map
    (normalizeError root json.flowVersion off), ?_, ?_, ?_, ?_⟩
  · unfold collect
    rw [spawnFlow_some_of_ne hin]
    simp [hp, he]
  · exact List.mem_map_of_mem _ (List.mem_filter.mpr ⟨hmem, hkeep⟩)
  · simp [normalizeError, hmloc, defaultPos]
  · intro op₂
    rfl

/-- Witness for C10 at a concrete diagnostic whose operation location matches
the target file while the first message carries no location. -/
theorem operation_filter_default_location_witness :
    e10.operation = some opMsg10 ∧ (firstMessage e10).loc = none ∧
    (∃ out, collect sampleResolve parse10 "var x = 1" "/r" false "f" offA (some "s") =
        CollectResult.out out ∧
      normalizeError "/r" "0.1" offA e10 ∈ out ∧
      (normalizeError "/r" "0.1" offA e10).loc =
        { start := { line := 1 + offA.line, column := 1, offset := some 0 }
          endPos := { line := 1 + offA.line, column := 1, offset := some 0 } } ∧
      ∀ op₂, (normalizeError "/r" "0.1" offA { e10 with operation := op₂ }).loc =
        (normalizeError "/r" "0.1" offA e10).loc) :=
  ⟨rfl, rfl,
    operation_filter_default_location sampleResolve parse10 "var x = 1" "/r" "f" "s" false offA
      { errors := some [e10], exit := none, flowVersion := "0.1" } [e10] e10 opMsg10
      { source := some "f"
        start := { line := 3, column := 4, offset := 5 }
        endPos := { line := 3, column := 6, offset := 7 }
        type := LocKind.SourceFile } "f"
      (by decide) rfl rfl (List.mem_singleton.mpr rfl) rfl rfl rfl (by decide) (by decide)
      (by decide) rfl rfl⟩

/-- Counterexample to C10 as stated: the operation location matches the target
file and the first message has no location, but the first description is
empty, so the filter drops the diagnostic — it does not appear in the output. -/
theorem operation_filter_empty_descr_counterexample :
    cexErr10.operation = some opMsg10 ∧
    opMsg10.loc.bind FlowLoc.source = some "f" ∧
    sampleResolve "/r" "f" = sampleResolve "/r" "f" ∧
    (firstMessage cexErr10).loc = none ∧
    collect sampleResolve cexParse10 "var x = 1" "/r" false "f" off0 (some "s") =
      CollectResult.out [] := by
  refine ⟨rfl, rfl, rfl, rfl, by decide⟩

end Flowtype
